import Mathlib

/-!
Shallow embedding of the route-and-spot capture session of
`src/components/templates/DrawRoad.tsx` (the RouteSpotSession of the spec).

The component state (`useState` hooks plus the redux-held `routes`/`spots`)
becomes an explicit `SessionState`; each event handler becomes a function
`SessionState → SessionState × List Out`, where `Out` records the commands
issued to the map surface (`mapServiceRef`) and the lookup/search requests.
Asynchronous completions (reverse geocode, place search) are separate events:
an issued request is parked in a pending list and a completion event picks a
pending entry and applies the continuation body exactly as written in the
source (`setAddresses((prev) => [...prev, ...])`, `setPlaces(searchedPlaces)`).
Lookup outcomes are supplied by an environment `Env` mapping each request to
its `Except`-valued result, so that a completion's payload is determined by
the point/query that originated it.
-/

/-- A tapped map coordinate (`{ latitude, longitude }`).  The session never
does arithmetic on coordinates, so they are embedded as integers. -/
structure RoutePoint where
  latitude : Int
  longitude : Int
deriving DecidableEq, Repr

/-- The `address` object of a Kakao reverse-geocode record:
`address_name` plus the optional `region_3depth_name` district field.
An absent or empty district is falsy in the source's template check. -/
structure GeneralAddress where
  address_name : String
  region_3depth_name : Option String
deriving DecidableEq, Repr

/-- The `road_address` object of a reverse-geocode record. -/
structure RoadAddress where
  address_name : String
deriving DecidableEq, Repr

/-- One element of the `searchAddress` result array. -/
structure GeoRecord where
  road_address : Option RoadAddress
  address : Option GeneralAddress
deriving DecidableEq, Repr

/-- A place returned by `searchPlaces`, with the fields the component reads
(`id`, `place_name`, `road_address_name`, and the `x`/`y` coordinates). -/
structure Place where
  id : String
  place_name : String
  road_address_name : String
  x : Int
  y : Int
deriving DecidableEq, Repr

/-- A spot marker (`models/Spot`): a point with editable title and content. -/
structure Spot where
  point : RoutePoint
  title : String
  content : String
deriving DecidableEq, Repr

/-- The two tap-handling modes of the component (`enum DrawMode`). -/
inductive DrawMode where
  | Road
  | Spot
deriving DecidableEq, Repr

/-- Commands issued to the map surface and requests issued to the
geocoding/search provider, in issue order. -/
inductive Out where
  | drawLine (latitude longitude : Int)
  | removeLastLine
  | removeAllLines
  | addMarker (latitude longitude : Int)
  | removeMarker (index : Nat)
  | removeCurrentLocationMarker
  | reverseGeocode (latitude longitude : Int)
  | searchPlacesReq (text : String)
  | requestGetPlaces (latitude longitude : Int)
deriving DecidableEq, Repr

/-- Composes the display string of `handkleClickMap`:
`result[0]?.road_address?.address_name ?? result[0]?.address?.address_name ?? ''`
followed by `` `${address}${region ? ` (${region})` : ''}` `` where
`region = result[0]?.address?.region_3depth_name` (empty string is falsy). -/
def formatAddress (result : List GeoRecord) : String :=
  let address :=
    match result.head? with
    | none => ""
    | some r =>
      match r.road_address with
      | some ra => ra.address_name
      | none =>
        match r.address with
        | some a => a.address_name
        | none => ""
  let region : Option String :=
    result.head?.bind fun r => r.address.bind fun a => a.region_3depth_name
  match region with
  | some rg => if rg = "" then address else address ++ " (" ++ rg ++ ")"
  | none => address

/-- Modelled from the spec: the `addRoute` reducer of
`stores/actions/editActions` is not under `src/`; the spec states RoutePoints
is an ordered, append-only sequence, so `addRoute` appends the new point. -/
def addRoute (routes : List RoutePoint) (p : RoutePoint) : List RoutePoint :=
  routes ++ [p]

/-- Modelled from the spec: the `removeRoute` reducer is not under `src/`;
the spec states `revert` drops the last point and is a no-op on an empty
route, which is `List.dropLast`. -/
def removeRoute (routes : List RoutePoint) : List RoutePoint :=
  routes.dropLast

/-- Modelled from the spec: the `clearRoute` reducer is not under `src/`;
the spec states `clear` drops all points. -/
def clearRoute (_routes : List RoutePoint) : List RoutePoint :=
  []

/-- Modelled from the spec: the `addSpot` reducer is not under `src/`;
the spec states a tapped spot is appended with empty title/content. -/
def addSpot (spots : List Spot) (p : RoutePoint) : List Spot :=
  spots ++ [{ point := p, title := "", content := "" }]

/-- Modelled from the spec: the `removeSpot` reducer is not under `src/`;
the spec states it removes the spot at the index and an out-of-range
remove is a no-op, which is `List.eraseIdx`. -/
def removeSpotReducer (spots : List Spot) (index : Nat) : List Spot :=
  spots.eraseIdx index

/-- The session state: the redux-held `routes` and `spots`, the component's
`useState` hooks (`addresses`, `searchQuery`, `places`, `selectedSpot`,
`mode`), plus bookkeeping of the session's outstanding asynchronous work:
`pendingGeo` lists the reverse-geocode requests issued by map taps that have
not yet completed (in issue order), `debounce` holds the text captured by the
currently scheduled, not-yet-fired `setTimeout` of `searchQueryDebounceRef`,
and `pendingSearch` lists the texts of fired `searchPlaces` network calls
still in flight. -/
structure SessionState where
  mode : DrawMode
  routes : List RoutePoint
  spots : List Spot
  addresses : List String
  searchQuery : String
  places : List Place
  selectedSpot : Option Nat
  pendingGeo : List RoutePoint
  debounce : Option String
  pendingSearch : List String
deriving DecidableEq, Repr

/-- The initial component state: `DrawMode.Road`, empty collections,
empty query, no selection, nothing pending. -/
def initialState : SessionState :=
  { mode := DrawMode.Road
    routes := []
    spots := []
    addresses := []
    searchQuery := ""
    places := []
    selectedSpot := none
    pendingGeo := []
    debounce := none
    pendingSearch := [] }

/-- The lookup provider: the outcome of each reverse geocode
(`searchAddress`) and each place text search (`searchPlaces`).
`Except.error` is a thrown/rejected lookup, caught by the source's
empty `catch` handlers. -/
structure Env where
  geo : RoutePoint → Except Unit (List GeoRecord)
  placeSearch : String → Except Unit (List Place)

/-- The `useEffect` with dependencies `[dispatch, routes]`: after any route
mutation, if `routes.size === 1` the session dispatches
`requestGetPlaces(routes.get(0))` and issues `removeCurrentLocationMarker()`. -/
def routesEffect (routes : List RoutePoint) : List Out :=
  match routes with
  | [p] => [Out.requestGetPlaces p.latitude p.longitude,
            Out.removeCurrentLocationMarker]
  | _ => []

/-- The handler `handkleClickMap` (sic): in Road mode, dispatch `addRoute`, issue
`drawLine`, and start `searchAddress` (the reverse geocode is parked in
`pendingGeo`; its continuation runs at the matching completion event).
In Spot mode, dispatch `addSpot` and issue `addMarker`.  A route mutation
re-runs the `[dispatch, routes]` effect. -/
def handkleClickMap (s : SessionState) (p : RoutePoint) :
    SessionState × List Out :=
  match s.mode with
  | DrawMode.Road =>
    let routes := addRoute s.routes p
    ({ s with routes := routes, pendingGeo := s.pendingGeo ++ [p] },
     [Out.drawLine p.latitude p.longitude,
      Out.reverseGeocode p.latitude p.longitude] ++ routesEffect routes)
  | DrawMode.Spot =>
    ({ s with spots := addSpot s.spots p },
     [Out.addMarker p.latitude p.longitude])

/-- The handler `handleClickRevertRoad`: dispatch `removeRoute`, run
`setAddresses((prev) => prev.slice(0, prev.length - 1))`, and issue
`removeLastLine()` — all three unconditionally, with no emptiness check.
A route mutation re-runs the `[dispatch, routes]` effect. -/
def handleClickRevertRoad (s : SessionState) : SessionState × List Out :=
  let routes := removeRoute s.routes
  ({ s with routes := routes, addresses := s.addresses.dropLast },
   [Out.removeLastLine] ++ routesEffect routes)

/-- The handler `handleClickClearRoad`: dispatch `clearRoute`, set `addresses` to `[]`,
issue `removeAllLines()`. -/
def handleClickClearRoad (s : SessionState) : SessionState × List Out :=
  let routes := clearRoute s.routes
  ({ s with routes := routes, addresses := [] },
   [Out.removeAllLines] ++ routesEffect routes)

/-- The handler `handleChangeSearchQuery`: synchronously `setSearchQuery(value)`, then
`clearTimeout` any previously scheduled (un-fired) debounce timer and
schedule a fresh 500 ms timer capturing `value` — in the state machine, the
`debounce` slot is overwritten.  A timer that already fired (its network
call is in `pendingSearch`) is unaffected. -/
def handleChangeSearchQuery (s : SessionState) (value : String) :
    SessionState × List Out :=
  ({ s with searchQuery := value, debounce := some value }, [])

/-- The debounce timer callback firing: if the captured text is non-empty
(`!isEmpty(value)`), call `searchPlaces(value)` — the network call is parked
in `pendingSearch`; on an empty text the callback does nothing. -/
def debounceFire (s : SessionState) : SessionState × List Out :=
  match s.debounce with
  | none => (s, [])
  | some value =>
    if value = "" then ({ s with debounce := none }, [])
    else
      ({ s with debounce := none, pendingSearch := s.pendingSearch ++ [value] },
       [Out.searchPlacesReq value])

/-- Completion of the `i`-th outstanding reverse geocode: on success the
continuation of `handkleClickMap` runs
`setAddresses((prev) => [...prev, formatted])` — an unconditional append,
with no check that the originating point is still part of the route; on a
thrown lookup the empty `catch` handler changes nothing.  A completion index
with no outstanding request is impossible at runtime and is a no-op here. -/
def searchAddressComplete (env : Env) (s : SessionState) (i : Nat) :
    SessionState × List Out :=
  match s.pendingGeo[i]? with
  | none => (s, [])
  | some p =>
    let s' := { s with pendingGeo := s.pendingGeo.eraseIdx i }
    match env.geo p with
    | Except.ok result =>
      ({ s' with addresses := s.addresses ++ [formatAddress result] }, [])
    | Except.error _ => (s', [])

/-- Completion of the `i`-th in-flight `searchPlaces` network call: on
success the callback runs `setPlaces(searchedPlaces)` unconditionally —
there is no token or query check against the current input; on a rejected
call the empty `catch` handler changes nothing. -/
def searchPlacesComplete (env : Env) (s : SessionState) (i : Nat) :
    SessionState × List Out :=
  match s.pendingSearch[i]? with
  | none => (s, [])
  | some q =>
    let s' := { s with pendingSearch := s.pendingSearch.eraseIdx i }
    match env.placeSearch q with
    | Except.ok found => ({ s' with places := found }, [])
    | Except.error _ => (s', [])

/-- The handler `handleRemoveSpot`: when a spot is selected, clear the selection if the
removed index equals it (`index === selectedSpot`) and decrement it if the
removed index is below it (`index < selectedSpot`); then dispatch
`removeSpot({ index })` and issue `removeMarker(index)`. -/
def handleRemoveSpot (s : SessionState) (index : Nat) :
    SessionState × List Out :=
  let selectedSpot :=
    match s.selectedSpot with
    | none => none
    | some sel =>
      if index = sel then none
      else if index < sel then some (sel - 1)
      else some sel
  ({ s with selectedSpot := selectedSpot,
            spots := removeSpotReducer s.spots index },
   [Out.removeMarker index])

/-- The handler `handleClickMode`: a pure mode switch with no map-surface effect. -/
def handleClickMode (s : SessionState) (m : DrawMode) :
    SessionState × List Out :=
  ({ s with mode := m }, [])

/-- The discrete events driving the session: direct user actions, the
debounce timer firing, and asynchronous lookup completions (each naming
which outstanding request completes, so completions may arrive in any
order). -/
inductive Ev where
  | clickMap (p : RoutePoint)
  | clickRevert
  | clickClear
  | textChange (value : String)
  | timerFire
  | geoComplete (i : Nat)
  | searchComplete (i : Nat)
  | removeSpotEv (index : Nat)
  | setModeEv (m : DrawMode)
deriving DecidableEq, Repr

/-- One step of the session: dispatch the event to its handler. -/
def step (env : Env) (s : SessionState) (e : Ev) : SessionState × List Out :=
  match e with
  | Ev.clickMap p => handkleClickMap s p
  | Ev.clickRevert => handleClickRevertRoad s
  | Ev.clickClear => handleClickClearRoad s
  | Ev.textChange value => handleChangeSearchQuery s value
  | Ev.timerFire => debounceFire s
  | Ev.geoComplete i => searchAddressComplete env s i
  | Ev.searchComplete i => searchPlacesComplete env s i
  | Ev.removeSpotEv index => handleRemoveSpot s index
  | Ev.setModeEv m => handleClickMode s m

/-- Runs a sequence of events from a state, discarding outputs. -/
def runEvents (env : Env) (s : SessionState) : List Ev → SessionState
  | [] => s
  | e :: es => runEvents env (step env s e).1 es

/-- The timed model of `handleChangeSearchQuery`'s debounce: the input is the
list of `(time, text)` change events in increasing time order, `pending` the
currently scheduled timer as `(deadline, text)`.  Each change first lets the
scheduled timer fire if its deadline has passed (`setTimeout` with 500 ms
fires once its deadline is reached unless `clearTimeout` ran first; the
fired callback calls `searchPlaces(text)` only for non-empty text), then
replaces the timer with one due 500 ms later capturing the new text.  When
the input ends, the last scheduled timer fires.  The result is the list of
`searchPlaces` invocation texts, in order. -/
def searchQueryDebounceRun (pending : Option (Nat × String)) :
    List (Nat × String) → List String
  | [] =>
    match pending with
    | some (_, value) => if value = "" then [] else [value]
    | none => []
  | (t, text) :: rest =>
    let fired :=
      match pending with
      | some (d, value) =>
        if d ≤ t then (if value = "" then [] else [value]) else []
      | none => []
    fired ++ searchQueryDebounceRun (some (t + 500, text)) rest

/-! Concrete fixtures used by counterexamples and witnesses. -/

/-- A concrete tapped point. -/
def pt1 : RoutePoint := { latitude := 3750, longitude := 12703 }

/-- A second concrete tapped point. -/
def pt2 : RoutePoint := { latitude := 3751, longitude := 12704 }

/-- A reverse-geocode record with both a road address and a district. -/
def recA : GeoRecord :=
  { road_address := some { address_name := "Teheran-ro 1" }
    address := some { address_name := "Yeoksam-dong 1"
                      region_3depth_name := some "Gangnam-gu" } }

/-- A reverse-geocode record with only a general address and no district. -/
def recB : GeoRecord :=
  { road_address := none
    address := some { address_name := "Somewhere 2"
                      region_3depth_name := none } }

/-- A concrete searched place. -/
def placeA : Place :=
  { id := "pa", place_name := "Cafe A", road_address_name := "Road A"
    x := 1, y := 2 }

/-- A second concrete searched place. -/
def placeB : Place :=
  { id := "pb", place_name := "Cafe B", road_address_name := "Road B"
    x := 3, y := 4 }

/-- An environment whose lookups all succeed with fixed results. -/
def envOkA : Env :=
  { geo := fun _ => Except.ok [recA]
    placeSearch := fun _ => Except.ok [placeA] }

/-- An environment whose geocoder distinguishes `pt1` from other points. -/
def envTwo : Env :=
  { geo := fun p => if p = pt1 then Except.ok [recA] else Except.ok [recB]
    placeSearch := fun _ => Except.error () }

/-- An environment whose lookups all fail. -/
def envFail : Env :=
  { geo := fun _ => Except.error ()
    placeSearch := fun _ => Except.error () }

/-- An environment whose place search distinguishes the query `"a"`. -/
def envSearch : Env :=
  { geo := fun _ => Except.error ()
    placeSearch := fun q =>
      if q = "a" then Except.ok [placeA] else Except.ok [placeB] }

/-- A state with a shown candidate list, an in-flight search for `"cafe"`,
and a pending geocode for `pt1`. -/
def sBusy : SessionState :=
  { initialState with
      places := [placeB]
      searchQuery := "cafe"
      pendingSearch := ["cafe"]
      pendingGeo := [pt1]
      debounce := some "cafe" }

/-- C6 counterexample: `handleClickRevertRoad` on the empty initial session
leaves the state unchanged but still issues a `removeLastLine` command to the
map surface, refuting the claim that no MapSurface command is issued. -/
theorem C6_counterexample :
    initialState.routes = [] ∧
    (step envOkA initialState Ev.clickRevert).1 = initialState ∧
    (step envOkA initialState Ev.clickRevert).2 = [Out.removeLastLine] :=
  ⟨rfl, rfl, rfl⟩

/-- C6 (amended): reverting when both the route and the address list are
empty leaves the session state unchanged, but a `removeLastLine` command is
always issued to the map surface (the handler has no emptiness check). -/
theorem C6_revert_empty_state_unchanged (env : Env) (s : SessionState)
    (hr : s.routes = []) (ha : s.addresses = []) :
    (step env s Ev.clickRevert).1 = s ∧
    (step env s Ev.clickRevert).2 = [Out.removeLastLine] := by
  cases s with
  | mk mode routes spots addresses searchQuery places selectedSpot pendingGeo debounce pendingSearch =>
    simp only [SessionState.routes] at hr
    simp only [SessionState.addresses] at ha
    subst hr; subst ha
    exact ⟨rfl, rfl⟩

/-- Witness for C6: the amended theorem applied to the initial state. -/
theorem C6_revert_empty_state_unchanged_witness :
    (step envFail initialState Ev.clickRevert).1 = initialState ∧
    (step envFail initialState Ev.clickRevert).2 = [Out.removeLastLine] :=
  C6_revert_empty_state_unchanged envFail initialState rfl rfl

/-- C8: a map tap in Road mode on an empty route appends the first point and
issues, in order, `drawLine`, the reverse-geocode request, exactly one
`requestGetPlaces` (place search by location seeded from that point), and
`removeCurrentLocationMarker`; no text-search request appears. -/
theorem C8_first_point_side_effect (env : Env) (s : SessionState)
    (p : RoutePoint) (hmode : s.mode = DrawMode.Road) (hroutes : s.routes = []) :
    (step env s (Ev.clickMap p)).1.routes = [p] ∧
    (step env s (Ev.clickMap p)).2 =
      [Out.drawLine p.latitude p.longitude,
       Out.reverseGeocode p.latitude p.longitude,
       Out.requestGetPlaces p.latitude p.longitude,
       Out.removeCurrentLocationMarker] := by
  simp [step, handkleClickMap, hmode, hroutes, addRoute, routesEffect]

/-- Witness for C8: the first tap on the initial session. -/
theorem C8_first_point_side_effect_witness :
    (step envOkA initialState (Ev.clickMap pt1)).1.routes = [pt1] ∧
    (step envOkA initialState (Ev.clickMap pt1)).2 =
      [Out.drawLine pt1.latitude pt1.longitude,
       Out.reverseGeocode pt1.latitude pt1.longitude,
       Out.requestGetPlaces pt1.latitude pt1.longitude,
       Out.removeCurrentLocationMarker] :=
  C8_first_point_side_effect envOkA initialState pt1 rfl rfl

/-- C9: `handleRemoveSpot k` removes the spot at index `k`, issues exactly a
`removeMarker k` command, and maps the selection as the claim states: a
selection equal to `k` is cleared, a selection above `k` is decremented, a
selection below `k` (or no selection) is unchanged. -/
theorem C9_removeSpot_selection (env : Env) (s : SessionState) (k : Nat) :
    (step env s (Ev.removeSpotEv k)).1.spots = s.spots.eraseIdx k ∧
    (step env s (Ev.removeSpotEv k)).2 = [Out.removeMarker k] ∧
    (step env s (Ev.removeSpotEv k)).1.selectedSpot =
      (match s.selectedSpot with
       | none => none
       | some j => if j = k then none else if k < j then some (j - 1) else some j) := by
  refine ⟨rfl, rfl, ?_⟩
  show (match s.selectedSpot with
        | none => none
        | some sel =>
          if k = sel then none
          else if k < sel then some (sel - 1) else some sel) = _
  cases s.selectedSpot with
  | none => rfl
  | some j =>
    by_cases hk : k = j
    · simp [hk]
    · have hjk : ¬ j = k := fun hcontra => hk hcontra.symm
      simp [hk, hjk]

/-- C10: when the route has exactly two points, `handleClickRevertRoad`
leaves a one-point route and — because the `[dispatch, routes]` effect is
keyed on the current length being `1`, not on a 0-to-1 transition — it
re-issues `requestGetPlaces` for point 0 and `removeCurrentLocationMarker`,
after the `removeLastLine` command. -/
theorem C10_revert_to_one_reissues (env : Env) (s : SessionState)
    (pa pb : RoutePoint) (h : s.routes = [pa, pb]) :
    (step env s Ev.clickRevert).1.routes = [pa] ∧
    (step env s Ev.clickRevert).2 =
      [Out.removeLastLine,
       Out.requestGetPlaces pa.latitude pa.longitude,
       Out.removeCurrentLocationMarker] := by
  simp [step, handleClickRevertRoad, removeRoute, h, routesEffect,
        List.dropLast]

/-- Witness for C10: reverting a concrete two-point route. -/
theorem C10_revert_to_one_reissues_witness :
    (step envOkA { initialState with routes := [pt1, pt2] }
        Ev.clickRevert).1.routes = [pt1] ∧
    (step envOkA { initialState with routes := [pt1, pt2] }
        Ev.clickRevert).2 =
      [Out.removeLastLine,
       Out.requestGetPlaces pt1.latitude pt1.longitude,
       Out.removeCurrentLocationMarker] :=
  C10_revert_to_one_reissues envOkA { initialState with routes := [pt1, pt2] }
    pt1 pt2 rfl

/-- C7 counterexample: on a session showing candidate places, a text change
to the empty string (and the subsequent no-op timer) leaves `places`
untouched, refuting the claim that `candidatePlaces` is cleared. -/
theorem C7_counterexample :
    (step envSearch sBusy (Ev.textChange "")).1.places = [placeB] ∧
    (step envSearch (step envSearch sBusy (Ev.textChange "")).1
        Ev.timerFire).1.places = [placeB] ∧
    ([placeB] : List Place) ≠ [] := by
  refine ⟨rfl, rfl, by simp⟩

/-- C7 (amended): a text change to the empty string synchronously updates
`searchQuery`, replaces any pending debounced lookup with a timer capturing
the empty string, and issues no request; when that timer fires it issues no
`searchPlaces` request and starts no network call — but `places` is left
holding its previous contents, not cleared. -/
theorem C7_empty_query_keeps_places (env : Env) (s : SessionState) :
    (step env s (Ev.textChange "")).1.searchQuery = "" ∧
    (step env s (Ev.textChange "")).1.debounce = some "" ∧
    (step env s (Ev.textChange "")).2 = [] ∧
    (step env s (Ev.textChange "")).1.places = s.places ∧
    (step env (step env s (Ev.textChange "")).1 Ev.timerFire).2 = [] ∧
    (step env (step env s (Ev.textChange "")).1 Ev.timerFire).1.places =
      s.places ∧
    (step env (step env s (Ev.textChange "")).1 Ev.timerFire).1.pendingSearch =
      s.pendingSearch := by
  refine ⟨rfl, rfl, rfl, rfl, ?_, ?_, ?_⟩ <;>
    simp [step, handleChangeSearchQuery, debounceFire]

/-- C5: three text changes at strictly increasing times inside one 500 ms
window, all with non-empty texts, cause the debounce machinery to issue
exactly one `searchPlaces` invocation, carrying the last text; and any text
change updates `searchQuery` synchronously. -/
theorem C5_three_calls_one_lookup (ta tb tc : Nat) (sa sb sc : String)
    (hab : ta < tb) (hbc : tb < tc) (hw : tc < ta + 500)
    (ha : sa ≠ "") (hb : sb ≠ "") (hc : sc ≠ "")
    (env : Env) (s : SessionState) :
    searchQueryDebounceRun none [(ta, sa), (tb, sb), (tc, sc)] = [sc] ∧
    (step env s (Ev.textChange sc)).1.searchQuery = sc := by
  constructor
  · have hd1 : ¬ (ta + 500 ≤ tb) := by omega
    have hd2 : ¬ (tb + 500 ≤ tc) := by omega
    simp [searchQueryDebounceRun, hd1, hd2, hc]
  · rfl

/-- Witness for C5: three concrete keystrokes at 0, 100 and 200 ms. -/
theorem C5_three_calls_one_lookup_witness :
    searchQueryDebounceRun none [(0, "c"), (100, "ca"), (200, "caf")] = ["caf"] ∧
    (step envOkA initialState (Ev.textChange "caf")).1.searchQuery = "caf" :=
  C5_three_calls_one_lookup 0 100 200 "c" "ca" "caf"
    (by omega) (by omega) (by omega)
    (by simp) (by simp) (by simp) envOkA initialState

/-- C1 counterexample: tap, revert, then the late geocode success — the
address list was empty after the revert, yet the stale response is appended,
refuting the claim that it is discarded. -/
theorem C1_counterexample :
    (runEvents envOkA initialState [Ev.clickMap pt1, Ev.clickRevert]).addresses
      = [] ∧
    (runEvents envOkA initialState
        [Ev.clickMap pt1, Ev.clickRevert, Ev.geoComplete 0]).addresses =
      ["Teheran-ro 1 (Gangnam-gu)"] ∧
    (runEvents envOkA initialState
        [Ev.clickMap pt1, Ev.clickRevert, Ev.geoComplete 0]).routes = [] := by
  refine ⟨rfl, ?_, rfl⟩
  show [formatAddress [recA]] = ["Teheran-ro 1 (Gangnam-gu)"]
  rfl

/-- C1 (amended): a reverse-geocode success is applied unconditionally when
it completes — `setAddresses` appends the formatted result with no check
that the originating point is still part of the route, so a stale response
for a reverted point is still appended to `addresses`. -/
theorem C1_stale_geocode_applied (env : Env) (s : SessionState) (i : Nat)
    (p : RoutePoint) (result : List GeoRecord)
    (hp : s.pendingGeo[i]? = some p)
    (hok : env.geo p = Except.ok result) :
    (step env s (Ev.geoComplete i)).1.addresses =
      s.addresses ++ [formatAddress result] := by
  simp [step, searchAddressComplete, hp, hok]

/-- Witness for C1: the late response after tap and revert is appended. -/
theorem C1_stale_geocode_applied_witness :
    (step envOkA
        (runEvents envOkA initialState [Ev.clickMap pt1, Ev.clickRevert])
        (Ev.geoComplete 0)).1.addresses =
      (runEvents envOkA initialState
          [Ev.clickMap pt1, Ev.clickRevert]).addresses ++
        [formatAddress [recA]] :=
  C1_stale_geocode_applied envOkA
    (runEvents envOkA initialState [Ev.clickMap pt1, Ev.clickRevert])
    0 pt1 [recA] rfl rfl

/-- C3 counterexample: after a tap whose reverse geocode fails, nothing is
appended to `addresses` (no empty placeholder, though the route has one
point), and a failed place search leaves the previous candidate list in
place instead of degrading to an empty list. -/
theorem C3_counterexample :
    (runEvents envFail initialState
        [Ev.clickMap pt1, Ev.geoComplete 0]).addresses = [] ∧
    (runEvents envFail initialState
        [Ev.clickMap pt1, Ev.geoComplete 0]).routes = [pt1] ∧
    (([] : List String) ≠ [""]) ∧
    (step envFail sBusy (Ev.searchComplete 0)).1.places = [placeB] ∧
    (([placeB] : List Place) ≠ []) := by
  refine ⟨rfl, rfl, by simp, rfl, by simp⟩

/-- C3 (amended): failed lookups are swallowed by the empty `catch` handlers
and never raise a fatal error, but a failed reverse geocode appends nothing
to `addresses` (the entry is skipped, not replaced by a placeholder) and a
failed place search leaves `places` unchanged rather than emptying it. -/
theorem C3_failure_silent (env : Env) (s : SessionState) (i j : Nat)
    (p : RoutePoint) (q : String)
    (hp : s.pendingGeo[i]? = some p)
    (hgeo : env.geo p = Except.error ())
    (hq : s.pendingSearch[j]? = some q)
    (hps : env.placeSearch q = Except.error ()) :
    (step env s (Ev.geoComplete i)).1.addresses = s.addresses ∧
    (step env s (Ev.searchComplete j)).1.places = s.places := by
  constructor <;>
    simp [step, searchAddressComplete, searchPlacesComplete, hp, hgeo, hq, hps]

/-- Witness for C3: the failing environment on a busy session. -/
theorem C3_failure_silent_witness :
    (step envFail sBusy (Ev.geoComplete 0)).1.addresses = sBusy.addresses ∧
    (step envFail sBusy (Ev.searchComplete 0)).1.places = sBusy.places :=
  C3_failure_silent envFail sBusy 0 0 pt1 "cafe" rfl rfl rfl rfl

/-- C4 counterexample: type `"a"`, let its timer fire (network call in
flight), type `"b"`, then let the first network call resolve — its result is
applied to `places` even though a later `schedule` superseded it; and after
the second lookup also resolves, both lookups' results have taken effect. -/
theorem C4_counterexample :
    (runEvents envSearch initialState
        [Ev.textChange "a", Ev.timerFire, Ev.textChange "b",
         Ev.searchComplete 0]).places = [placeA] ∧
    (runEvents envSearch initialState
        [Ev.textChange "a", Ev.timerFire, Ev.textChange "b",
         Ev.searchComplete 0, Ev.timerFire, Ev.searchComplete 0]).places =
      [placeB] ∧
    placeA ≠ placeB := by
  refine ⟨rfl, rfl, by simp [placeA, placeB]⟩

/-- C4 (amended): a later text change supersedes an earlier lookup only
while the earlier one is still a pending (un-fired) debounce timer — two
consecutive text changes leave the second text scheduled, touch no in-flight
network call and issue no request; but once a lookup's network call is in
flight, its successful result is applied to `places` unconditionally when it
completes. -/
theorem C4_supersede_pending_only (env : Env) (s : SessionState)
    (ta tb : String) (i : Nat) (q : String) (res : List Place)
    (hq : s.pendingSearch[i]? = some q)
    (hok : env.placeSearch q = Except.ok res) :
    (step env (step env s (Ev.textChange ta)).1 (Ev.textChange tb)).1.debounce
      = some tb ∧
    (step env (step env s (Ev.textChange ta)).1
        (Ev.textChange tb)).1.pendingSearch = s.pendingSearch ∧
    (step env (step env s (Ev.textChange ta)).1 (Ev.textChange tb)).2 = [] ∧
    (step env s (Ev.searchComplete i)).1.places = res := by
  refine ⟨rfl, rfl, rfl, ?_⟩
  simp [step, searchPlacesComplete, hq, hok]

/-- Witness for C4: an in-flight search for `"cafe"` resolves and overwrites
the candidate list even after two later text changes. -/
theorem C4_supersede_pending_only_witness :
    (step envSearch (step envSearch sBusy (Ev.textChange "x")).1
        (Ev.textChange "y")).1.debounce = some "y" ∧
    (step envSearch (step envSearch sBusy (Ev.textChange "x")).1
        (Ev.textChange "y")).1.pendingSearch = sBusy.pendingSearch ∧
    (step envSearch (step envSearch sBusy (Ev.textChange "x")).1
        (Ev.textChange "y")).2 = [] ∧
    (step envSearch sBusy (Ev.searchComplete 0)).1.places = [placeB] :=
  C4_supersede_pending_only envSearch sBusy "x" "y" 0 "cafe" [placeB] rfl rfl

/-- Predicate singling out the two route-removing events (`revert`, `clear`);
these are exactly the operations whose interleaving with a late geocode
completion breaks the address/route length relation. -/
def isRouteRemoval : Ev → Bool
  | Ev.clickRevert => true
  | Ev.clickClear => true
  | _ => false

/-- Length bookkeeping: the resolved addresses plus the geocodes still in
flight never outnumber the route points. -/
def lengthInv (s : SessionState) : Prop :=
  s.addresses.length + s.pendingGeo.length ≤ s.routes.length

/-- Any single event other than `revert`/`clear` preserves `lengthInv`. -/
theorem lengthInv_step (env : Env) (s : SessionState) (e : Ev)
    (he : isRouteRemoval e = false) (h : lengthInv s) :
    lengthInv (step env s e).1 := by
  unfold lengthInv at h ⊢
  cases e with
  | clickMap p =>
    cases hm : s.mode with
    | Road =>
      simp [step, handkleClickMap, hm, addRoute]
      omega
    | Spot => simpa [step, handkleClickMap, hm] using h
  | clickRevert => simp [isRouteRemoval] at he
  | clickClear => simp [isRouteRemoval] at he
  | textChange value => simpa [step, handleChangeSearchQuery] using h
  | timerFire =>
    cases hd : s.debounce with
    | none => simpa [step, debounceFire, hd] using h
    | some value =>
      by_cases hv : value = "" <;> simp [step, debounceFire, hd, hv] <;> omega
  | geoComplete i =>
    cases hg : s.pendingGeo[i]? with
    | none => simpa [step, searchAddressComplete, hg] using h
    | some p =>
      have hi : i < s.pendingGeo.length := by
        by_contra hc
        rw [List.getElem?_eq_none (by omega)] at hg
        exact Option.noConfusion hg
      cases hr : env.geo p with
      | ok result =>
        simp [step, searchAddressComplete, hg, hr, List.length_eraseIdx, hi]
        omega
      | error err =>
        simp [step, searchAddressComplete, hg, hr, List.length_eraseIdx, hi]
        omega
  | searchComplete i =>
    cases hg : s.pendingSearch[i]? with
    | none => simpa [step, searchPlacesComplete, hg] using h
    | some q =>
      cases hr : env.placeSearch q with
      | ok found => simpa [step, searchPlacesComplete, hg, hr] using h
      | error err => simpa [step, searchPlacesComplete, hg, hr] using h
  | removeSpotEv index => simpa [step, handleRemoveSpot] using h
  | setModeEv m => simpa [step, handleClickMode] using h

/-- Over any event sequence free of `revert`/`clear`, `lengthInv` is
preserved. -/
theorem lengthInv_runEvents (env : Env) (events : List Ev)
    (s : SessionState) (h : lengthInv s)
    (hno : ∀ e ∈ events, isRouteRemoval e = false) :
    lengthInv (runEvents env s events) := by
  induction events generalizing s with
  | nil => exact h
  | cons e es ih =>
    exact ih (step env s e).1
      (lengthInv_step env s e (hno e (by simp)) h)
      (fun e' he' => hno e' (by simp [he']))

/-- The display string a point resolves to under an environment (the
`catch`-swallowed failure case never arises under the success hypothesis
of the ordered-settling theorem). -/
def addrOf (env : Env) (p : RoutePoint) : String :=
  match env.geo p with
  | Except.ok result => formatAddress result
  | Except.error _ => ""

/-- Alignment: the resolved addresses are exactly the geocodes of the first
`addresses.length` route points in order, and the outstanding geocode queue
is the remaining suffix of the route. -/
def alignInv (env : Env) (s : SessionState) : Prop :=
  s.addresses = (s.routes.take s.addresses.length).map (addrOf env) ∧
  s.pendingGeo = s.routes.drop s.addresses.length

/-- Predicate for the ordered-settling scenario: no route removal, and each
geocode completion is for the oldest outstanding request (completions arrive
in issue order). -/
def isOrderedSettling : Ev → Bool
  | Ev.clickRevert => false
  | Ev.clickClear => false
  | Ev.geoComplete i => i == 0
  | _ => true

/-- A single ordered-settling event preserves `alignInv` when every geocode
succeeds. -/
theorem alignInv_step (env : Env) (s : SessionState) (e : Ev)
    (hgeo : ∀ p, ∃ r, env.geo p = Except.ok r)
    (he : isOrderedSettling e = true)
    (h : alignInv env s) : alignInv env (step env s e).1 := by
  obtain ⟨h1, h2⟩ := h
  have hlen : s.addresses.length ≤ s.routes.length := by
    have hl := congrArg List.length h1
    simp [List.length_take] at hl
    omega
  unfold alignInv
  cases e with
  | clickMap p =>
    cases hm : s.mode with
    | Road =>
      simp only [step, handkleClickMap, hm, addRoute]
      constructor
      · rw [List.take_append_of_le_length hlen]
        exact h1
      · rw [List.drop_append_of_le_length hlen, ← h2]
    | Spot =>
      simp only [step, handkleClickMap, hm]
      exact ⟨h1, h2⟩
  | clickRevert => simp [isOrderedSettling] at he
  | clickClear => simp [isOrderedSettling] at he
  | textChange value => exact ⟨h1, h2⟩
  | timerFire =>
    cases hd : s.debounce with
    | none => simpa [step, debounceFire, hd] using And.intro h1 h2
    | some value =>
      by_cases hv : value = ""
      · simpa [step, debounceFire, hd, hv] using And.intro h1 h2
      · simpa [step, debounceFire, hd, hv] using And.intro h1 h2
  | geoComplete i =>
    have hi0 : i = 0 := by simpa [isOrderedSettling] using he
    subst hi0
    cases hpg : s.pendingGeo with
    | nil =>
      simp only [step, searchAddressComplete, hpg, List.getElem?_nil]
      rw [hpg] at h2
      exact ⟨h1, h2⟩
    | cons p0 rest =>
      obtain ⟨r, hr⟩ := hgeo p0
      have hget : s.routes[s.addresses.length]? = some p0 := by
        rw [← List.head?_drop, ← h2, hpg]
        rfl
      have hddrop : s.routes.drop (s.addresses.length + 1) = rest := by
        have hdd := List.drop_drop 1 s.addresses.length s.routes
        rw [← hdd, ← h2, hpg]
        rfl
      simp only [step, searchAddressComplete, hpg, List.getElem?_cons_zero, hr]
      constructor
      · show s.addresses ++ [formatAddress r] =
          (s.routes.take (s.addresses ++ [formatAddress r]).length).map
            (addrOf env)
        rw [List.length_append, List.length_singleton, List.take_succ, hget,
            List.map_append]
        refine congrArg₂ _ h1 ?_
        simp [addrOf, hr]
      · show (p0 :: rest).eraseIdx 0 =
          s.routes.drop (s.addresses ++ [formatAddress r]).length
        rw [List.length_append, List.length_singleton, hddrop]
        rfl
  | searchComplete i =>
    cases hg : s.pendingSearch[i]? with
    | none => simpa [step, searchPlacesComplete, hg] using And.intro h1 h2
    | some q =>
      cases hr : env.placeSearch q with
      | ok found =>
        simpa [step, searchPlacesComplete, hg, hr] using And.intro h1 h2
      | error err =>
        simpa [step, searchPlacesComplete, hg, hr] using And.intro h1 h2
  | removeSpotEv index => exact ⟨h1, h2⟩
  | setModeEv m => exact ⟨h1, h2⟩

/-- Over any ordered-settling event sequence with an always-successful
geocoder, `alignInv` is preserved. -/
theorem alignInv_runEvents (env : Env) (events : List Ev)
    (s : SessionState) (hgeo : ∀ p, ∃ r, env.geo p = Except.ok r)
    (hall : ∀ e ∈ events, isOrderedSettling e = true)
    (h : alignInv env s) : alignInv env (runEvents env s events) := by
  induction events generalizing s with
  | nil => exact h
  | cons e es ih =>
    exact ih (step env s e).1
      (fun e' he' => hall e' (by simp [he']))
      (alignInv_step env s e hgeo (hall e (by simp)) h)

/-- C2 counterexample: first, tap → revert → late completion leaves one
address against zero route points, violating the length bound; second, two
taps whose geocodes complete out of order settle into a misaligned list —
the address at index 0 is the geocode of point 1, not of point 0. -/
theorem C2_counterexample :
    ((runEvents envTwo initialState
        [Ev.clickMap pt1, Ev.clickRevert, Ev.geoComplete 0]).addresses.length
        = 1 ∧
     (runEvents envTwo initialState
        [Ev.clickMap pt1, Ev.clickRevert, Ev.geoComplete 0]).routes.length
        = 0) ∧
    ((runEvents envTwo initialState
        [Ev.clickMap pt1, Ev.clickMap pt2, Ev.geoComplete 1,
         Ev.geoComplete 0]).pendingGeo = [] ∧
     (runEvents envTwo initialState
        [Ev.clickMap pt1, Ev.clickMap pt2, Ev.geoComplete 1,
         Ev.geoComplete 0]).routes = [pt1, pt2] ∧
     (runEvents envTwo initialState
        [Ev.clickMap pt1, Ev.clickMap pt2, Ev.geoComplete 1,
         Ev.geoComplete 0]).addresses =
       ["Somewhere 2", "Teheran-ro 1 (Gangnam-gu)"] ∧
     addrOf envTwo pt1 = "Teheran-ro 1 (Gangnam-gu)" ∧
     ("Somewhere 2" : String) ≠ "Teheran-ro 1 (Gangnam-gu)") := by
  refine ⟨⟨rfl, rfl⟩, rfl, rfl, ?_, ?_, by decide⟩ <;> rfl

/-- C2 (amended): in the absence of `revert`/`clear`, the resolved address
list never outgrows the route (`addresses.length ≤ routes.length` after
every event sequence); and if in addition every geocode succeeds and
completions arrive in issue order, then once no geocode is pending the two
sequences have equal length and the address at each index is the geocode of
the route point at that index. -/
theorem C2_no_removal_invariant (env : Env) (events : List Ev)
    (hno : ∀ e ∈ events, isRouteRemoval e = false) :
    (runEvents env initialState events).addresses.length ≤
      (runEvents env initialState events).routes.length ∧
    ((∀ e ∈ events, isOrderedSettling e = true) →
      (∀ p, ∃ r, env.geo p = Except.ok r) →
      (runEvents env initialState events).pendingGeo = [] →
      (runEvents env initialState events).addresses.length =
          (runEvents env initialState events).routes.length ∧
        (runEvents env initialState events).addresses =
          (runEvents env initialState events).routes.map (addrOf env)) := by
  have hlen : lengthInv (runEvents env initialState events) :=
    lengthInv_runEvents env events initialState
      (by simp [lengthInv, initialState]) hno
  constructor
  · unfold lengthInv at hlen
    omega
  · intro hall hgeo hpend
    have halign : alignInv env (runEvents env initialState events) :=
      alignInv_runEvents env events initialState hgeo hall ⟨rfl, rfl⟩
    obtain ⟨h1, h2⟩ := halign
    rw [hpend] at h2
    have hge : (runEvents env initialState events).routes.length ≤
        (runEvents env initialState events).addresses.length :=
      List.drop_eq_nil_iff.mp h2.symm
    rw [List.take_of_length_le hge] at h1
    exact ⟨by rw [h1, List.length_map], h1⟩

/-- Witness for C2: two taps whose geocodes settle in issue order. -/
theorem C2_no_removal_invariant_witness :
    ((runEvents envOkA initialState
        [Ev.clickMap pt1, Ev.clickMap pt2, Ev.geoComplete 0,
         Ev.geoComplete 0]).addresses.length ≤
      (runEvents envOkA initialState
        [Ev.clickMap pt1, Ev.clickMap pt2, Ev.geoComplete 0,
         Ev.geoComplete 0]).routes.length) ∧
    (runEvents envOkA initialState
        [Ev.clickMap pt1, Ev.clickMap pt2, Ev.geoComplete 0,
         Ev.geoComplete 0]).addresses =
      (runEvents envOkA initialState
        [Ev.clickMap pt1, Ev.clickMap pt2, Ev.geoComplete 0,
         Ev.geoComplete 0]).routes.map (addrOf envOkA) :=
  ⟨(C2_no_removal_invariant envOkA
      [Ev.clickMap pt1, Ev.clickMap pt2, Ev.geoComplete 0, Ev.geoComplete 0]
      (by decide)).1,
   ((C2_no_removal_invariant envOkA
      [Ev.clickMap pt1, Ev.clickMap pt2, Ev.geoComplete 0, Ev.geoComplete 0]
      (by decide)).2 (by decide) (fun p => ⟨[recA], rfl⟩) rfl).2⟩
